import Mathlib

/-!
Verification of the BotFactory repository against its natural-language
specification.  Each section embeds one component of the source tree as
executable Lean definitions (translated from the Python source) and proves
or refutes the frozen claims about it.

Conventions used throughout:
* Django `CharField`s are Lean `String`s; a blank field is the empty string
  (Python truthiness of a `CharField` is `≠ ""`).
* Timestamps are integers (seconds); `timedelta(days=1)` is `86400`, etc.
* A Django queryset is a `List` of record structures; `objects.get(...)`
  which raises `DoesNotExist` becomes `List.find?` returning `Option`.
* Fallible Python code (try/except) becomes `Option`/`Except` or an
  explicit outcome parameter where the failure source is external I/O.
-/

/- ================================================================
   Section 1: Telegram webhook endpoint
   Source: src/backend/apps/telegram/webhook_views.py
   (`telegram_webhook_by_id`), together with
   src/backend/services/webhook_helper.py (`parse_webhook_update`).
   ================================================================ -/

namespace Webhook

/-- HTTP method of the request; the view is registered for POST and GET
(`@require_http_methods(["POST", "GET"])`). -/
inductive Method where
  | get
  | post
deriving DecidableEq, Repr

/-- Row of the `bots_bot` table as far as the webhook view reads it
(src/backend/apps/bots/models.py, class `Bot`).  `webhook_secret` is a
blank-able CharField, so "no secret configured" is the empty string. -/
structure BotRow where
  id : Nat
  name : String
  status : String
  delivery_mode : String
  webhook_secret : String
  telegram_token : String
deriving DecidableEq, Repr

/-- Parsed JSON body of the request.  `parse_webhook_update` returns the
decoded dict or `None`; reconstructing `Update(**update_data)` with aiogram
can additionally fail, which we record as the abstract flag
`update_valid` (the view only branches on whether the constructor threw). -/
structure UpdateData where
  update_id : Nat
  update_valid : Bool
deriving DecidableEq, Repr

/-- Incoming HTTP request, reduced to the parts the view reads: the method,
the parse result of the body, and the `X-Telegram-Bot-Api-Secret-Token`
header (`none` when the header is absent). -/
structure Request where
  method : Method
  body : Option UpdateData
  secretHeader : Option String
deriving DecidableEq, Repr

/-- HTTP response: status code and body text. -/
structure Response where
  status : Nat
  body : String
deriving DecidableEq, Repr

/-- Database lookup `BotModel.objects.get(id=bot_id, status='active')`:
the first row matching both filters, `none` when `DoesNotExist` would be
raised.  Ids are unique in the table, so `find?` is faithful. -/
def getActiveBot (db : List BotRow) (botId : Nat) : Option BotRow :=
  db.find? (fun b => b.id == botId && b.status == "active")

/-- Step 4 of the view: signature validation.  Translated literally from
webhook_views.py lines 134-151: the check runs only when a secret is
configured (`if bot_instance.webhook_secret:`) AND the header is truthy
(`if telegram_signature:` — absent or empty header skips the comparison);
`hmac.compare_digest` is equality.  Returns `true` when processing may
continue. -/
def signatureOk (secret : String) (header : Option String) : Bool :=
  if secret ≠ "" then
    match header with
    | some sig => if sig ≠ "" then sig == secret else true
    | none => true
  else true

/-- Embedding of `telegram_webhook_by_id` (webhook_views.py lines 60-254).
`procOk` abstracts whether `dp.feed_update` succeeds; both of its except
branches fall through to the final `HttpResponse("OK", status=200)`, so the
response does not depend on it.  The `WebhookEvent` logging calls are pure
side effects on the analytics table and are omitted: they never alter the
returned response.  The trailing generic `except Exception` (line 243,
status 500) is unreachable for the modelled failure sources. -/
def telegram_webhook_by_id (db : List BotRow) (botId : Nat) (req : Request)
    (procOk : Bool) : Response :=
  match req.method with
  | Method.get =>
      -- health check: JsonResponse with status ok and the bot id
      { status := 200, body := "Telegram Webhook Endpoint" }
  | Method.post =>
      match getActiveBot db botId with
      | none =>
          -- `except BotModel.DoesNotExist` → HttpResponseForbidden
          { status := 403, body := "Bot not found or inactive" }
      | some bot =>
          if bot.delivery_mode ≠ "webhook" then
            -- "Still return 200 to prevent Telegram retries"
            { status := 200, body := "OK" }
          else
            match req.body with
            | none => { status := 400, body := "Invalid JSON" }
            | some upd =>
                if !signatureOk bot.webhook_secret req.secretHeader then
                  { status := 403, body := "Invalid signature" }
                else if !upd.update_valid then
                  { status := 400, body := "Invalid Update format" }
                else
                  -- feed_update outcome is caught either way
                  let _ := procOk
                  { status := 200, body := "OK" }

/-- Example bots used in the concrete evaluations below. -/
def pollingBot : BotRow :=
  { id := 1, name := "Polling Bot", status := "active",
    delivery_mode := "polling", webhook_secret := "polling_secret_123",
    telegram_token := "tok1" }

def webhookBot : BotRow :=
  { id := 2, name := "Webhook Bot", status := "active",
    delivery_mode := "webhook", webhook_secret := "webhook_secret_123",
    telegram_token := "tok2" }

def pausedBot : BotRow :=
  { id := 3, name := "Paused Bot", status := "paused",
    delivery_mode := "webhook", webhook_secret := "", telegram_token := "tok3" }

def sampleDb : List BotRow := [pollingBot, webhookBot, pausedBot]

/-- Valid request carrying the matching secret for `pollingBot`. -/
def reqWithHeader (h : Option String) : Request :=
  { method := Method.post,
    body := some { update_id := 123456789, update_valid := true },
    secretHeader := h }

end Webhook

/- ================================================================
   Section 2: reversible token encryption
   Source: src/backend/core/utils.py (`encrypt_token`, `decrypt_token`).
   ================================================================ -/

namespace CoreUtils

/-- Abstract model of the Fernet cipher constructed from the derived key
(`_get_encryption_key`).  `enc` is total: once the `Fernet` object exists,
`Fernet.encrypt` of a UTF-8 string does not raise (the `except` branch of
`encrypt_token` is unreachable for a well-formed key, which the SHA-256
derivation always produces).  `dec` is partial: `Fernet.decrypt` raises
`InvalidToken` on anything that is not a ciphertext under this key.
`dec_enc` is Fernet's round-trip guarantee; `enc_ne` holds because Fernet
ciphertexts are never empty (they always carry the `0x80` version byte,
visible as the `gAAAAAB` base64 marker). -/
structure Cipher where
  enc : String → String
  dec : String → Option String
  dec_enc : ∀ s, dec (enc s) = some s
  enc_ne : ∀ s, enc s ≠ ""

/-- Embedding of `encrypt_token` (core/utils.py lines 75-105).  The
`Option Cipher` argument models availability of the `cryptography`
package: `none` is the `ImportError` fallback returning the input
unchanged; the empty string is returned unchanged (`if not token`). -/
def encrypt_token (c? : Option Cipher) (token : String) : String :=
  match c? with
  | none => token
  | some c => if token = "" then token else c.enc token

/-- Embedding of `decrypt_token` (core/utils.py lines 108-137): same
`ImportError` and empty-string fallbacks; a failing `Fernet.decrypt`
(`dec` returning `none`) falls back to returning the input unchanged for
backward compatibility with unencrypted legacy values. -/
def decrypt_token (c? : Option Cipher) (encrypted_token : String) : String :=
  match c? with
  | none => encrypted_token
  | some c =>
      if encrypted_token = "" then encrypted_token
      else
        match c.dec encrypted_token with
        | some plain => plain
        | none => encrypted_token

/-- Concrete cipher instance used to evaluate the round-trip theorem on
concrete inputs: prepends a marker character, and decryption strips it. -/
def toyCipher : Cipher where
  enc s := String.mk ('!' :: s.toList)
  dec t :=
    match t.toList with
    | '!' :: rest => some (String.mk rest)
    | _ => none
  dec_enc s := rfl
  enc_ne s := by
    intro h
    have : ('!' :: s.toList) = ([] : List Char) := congrArg String.toList h
    exact List.noConfusion this

end CoreUtils

/- ================================================================
   Section 3: Bot telegram-token validation and save-time encryption
   Source: src/backend/apps/bots/models.py (`Bot.clean`, `Bot.save`).
   ================================================================ -/

namespace BotsModels

/-- Python `str.startswith(marker)`, modelled on the character list. -/
def pyStartsWith (s marker : String) : Bool :=
  marker.toList.isPrefixOf s.toList

/-- Python `str.strip()` for the ASCII whitespace the tokens can contain:
drop whitespace from both ends. -/
def stripList (l : List Char) : List Char :=
  ((l.dropWhile Char.isWhitespace).reverse.dropWhile Char.isWhitespace).reverse

/-- String-level wrapper of `stripList`. -/
def pyStrip (s : String) : String :=
  String.mk (stripList s.toList)

/-- Python `token.count(':')`: the number of colon characters. -/
def colonCount (t : String) : Nat :=
  (t.toList.filter (fun c => c == ':')).length

/-- Python `str.isdigit()` restricted to ASCII: true iff the string is
non-empty and every character is a decimal digit. -/
def isPyDigits (l : List Char) : Bool :=
  !l.isEmpty && l.all Char.isDigit

/-- Embedding of `Bot.clean` (bots/models.py lines 116-172), the
Telegram-token validator.  Returns `none` when validation passes and
`some message` for the `ValidationError` raised (the length message drops
the interpolated actual length).  Empty and ciphertext-prefixed
(`gAAAAAB`) tokens skip validation; otherwise the stripped token must have
exactly one colon, a 9-10 digit bot id, a 35-character secret, and total
length 46.  Python's `token.split(':')` under the exactly-one-colon guard
yields the characters before and after that colon, embedded with
`takeWhile`/`dropWhile`; the guarded `except ValueError` is unreachable. -/
def validatePlain (token : String) : Option String :=
  if colonCount token ≠ 1 then
    some "Invalid token format. Token must be in format: bot_id:secret"
  else
    let l := token.toList
    let bot_id := l.takeWhile (fun c => c != ':')
    let secret := (l.dropWhile (fun c => c != ':')).tail
    if isPyDigits bot_id = false ∨ bot_id.length < 9 ∨ 10 < bot_id.length then
      some "Invalid bot ID. Must be 9-10 digits."
    else if secret.length ≠ 35 then
      some "Invalid secret length. Must be exactly 35 characters."
    else if token.length ≠ 46 then
      some "Invalid token length. Must be 46 characters."
    else none

/-- Top-level structure of `Bot.clean`: empty and ciphertext-prefixed
tokens skip validation; the rest is `validatePlain` on the stripped
token. -/
def clean (telegram_token : String) : Option String :=
  if telegram_token = "" then none
  else if pyStartsWith telegram_token "gAAAAAB" then none
  else validatePlain (pyStrip telegram_token)

/-- Acceptance predicate of `Bot.clean`: no `ValidationError` raised. -/
def cleanAccepts (telegram_token : String) : Bool :=
  (clean telegram_token).isNone

/-- Modelled from the spec: the claim's token pattern `^\d{9,10}:.{35}$`
(9 or 10 ASCII digits, a colon, then exactly 35 characters, where `.`
matches anything but a newline as in Python `re`). -/
def matchesSpecRegex (t : String) : Bool :=
  let l := t.toList
  (l.length == 45 && (l.take 9).all Char.isDigit && l.get? 9 == some ':'
      && (l.drop 10).all (fun c => c != '\n'))
  || (l.length == 46 && (l.take 10).all Char.isDigit && l.get? 10 == some ':'
      && (l.drop 11).all (fun c => c != '\n'))

/-- The pattern the code actually accepts for plaintext tokens (after
stripping): `^\d{10}:[^:]{35}$` — exactly 10 digits, a colon, and a
35-character secret containing no colon, 46 characters in all.  Nine-digit
bot ids produce 45-character tokens, which the final `len(token) != 46`
check of `Bot.clean` rejects. -/
def amendedPattern (t : String) : Bool :=
  let l := t.toList
  l.length == 46 && (l.take 10).all Char.isDigit && l.get? 10 == some ':'
    && (l.drop 11).all (fun c => c != ':')

/-- Embedding of the token handling in `Bot.save` (bots/models.py lines
190-197): a non-empty token that is not ciphertext-prefixed and looks like
a plain token (`':' in token and len(token.split(':')) == 2`, i.e. exactly
one colon) is encrypted; everything else — in particular an
already-encrypted token — is stored unchanged. -/
def save_token (c? : Option CoreUtils.Cipher) (telegram_token : String) :
    String :=
  if telegram_token ≠ "" ∧ pyStartsWith telegram_token "gAAAAAB" = false
      ∧ colonCount telegram_token = 1 then
    CoreUtils.encrypt_token c? telegram_token
  else telegram_token

/-- The claim's own example shape: 9 digits, colon, 35 characters
(45 characters in total, although the claim calls it 46). -/
def tok45 : String := "123456789:ABCDEFGHIJKLMNOPQRSTUVWXYZABCDEFGHI"

/-- A 46-character token matching the claim's regex whose 35-character
secret contains a colon. -/
def tok46colon : String := "1234567890:ABCDEFGHIJKLMNOPQ:ABCDEFGHIJKLMNOPQ"

/-- A token the validator accepts: 10 digits, colon, 35 colon-free
characters. -/
def tok46ok : String := "1234567890:AAAAAAAAAAAAAAAAAAAAAAAAAAAAAAAAAAA"

end BotsModels


/- ================================================================
   Section 4: AI feature governance (usage limits, logging, generate)
   Source: src/backend/apps/ai_settings/models.py (`AIUsageLog`) and
   src/backend/apps/ai_settings/services.py (`AIService`).
   ================================================================ -/

namespace AISettings

/-- Row of `AIModel` as read by the service: identity, activity flags and
the per-1k-token catalog costs (DecimalFields, embedded as rationals). -/
structure AIModelRec where
  model_id : String
  provider_name : String
  is_active : Bool
  is_default : Bool
  max_tokens : Nat
  input_cost_per_1k : Rat
  output_cost_per_1k : Rat
deriving DecidableEq, Repr

/-- Row of `AIFeature`; `default_model` denormalizes the FK into the
referenced record. -/
structure AIFeatureRec where
  code : String
  is_active : Bool
  default_model : Option AIModelRec
deriving DecidableEq, Repr

/-- Row of `AIUsageLimit` (unique per (plan, feature)). -/
structure AIUsageLimitRec where
  plan : String
  feature_code : String
  max_uses : Int
  period : String
  is_unlimited : Bool
deriving DecidableEq, Repr

/-- Row of `AIUsageLog`. -/
structure AIUsageLogRec where
  user : Nat
  feature_code : String
  input_tokens : Nat
  output_tokens : Nat
  cost_cents : Rat
  success : Bool
  error_message : String
  created_at : Int
deriving DecidableEq, Repr

/-- The slice of `User` the limit checker reads: id and derived plan. -/
structure UserRow where
  id : Nat
  plan : String
deriving DecidableEq, Repr

/-- The tables involved in limit checking and generation. -/
structure Db where
  features : List AIFeatureRec
  limits : List AIUsageLimitRec
  models : List AIModelRec
  logs : List AIUsageLogRec
deriving Repr

/-- Window length per period (models.py lines 181-188):
`timedelta(days=1)`, `timedelta(weeks=1)`, `timedelta(days=30)`, with
weekly as the fallback for unknown period strings; in seconds. -/
def periodSeconds (period : String) : Int :=
  if period = "daily" then 86400
  else if period = "weekly" then 604800
  else if period = "monthly" then 2592000
  else 604800

/-- Embedding of `AIUsageLog.get_usage_count` (models.py lines 176-195):
count of log rows for this user and feature code with
`created_at >= now - period` and `success=True`. -/
def get_usage_count (db : Db) (userId : Nat) (feature_code : String)
    (period : String) (now : Int) : Nat :=
  (db.logs.filter (fun log =>
    log.user == userId && log.feature_code == feature_code
      && decide (now - periodSeconds period ≤ log.created_at)
      && log.success)).length

/-- Embedding of `AIUsageLog.can_use_feature` (models.py lines 197-219).
The `AIFeature.objects.get(code=..., is_active=True)` and
`AIUsageLimit.objects.get(plan=..., feature=...)` lookups become `find?`
(both lookups are on unique keys); `DoesNotExist` is the `none` branch. -/
def can_use_feature (db : Db) (u : UserRow) (feature_code : String)
    (now : Int) : Bool × String :=
  match db.features.find? (fun f => f.code == feature_code && f.is_active) with
  | none => (false, "Feature not available")
  | some feature =>
      match db.limits.find? (fun l =>
          l.plan == u.plan && l.feature_code == feature.code) with
      | none => (false, "No limit configured for your plan")
      | some limit =>
          if limit.is_unlimited then (true, "Unlimited")
          else
            let current_usage :=
              get_usage_count db u.id feature_code limit.period now
            if limit.max_uses ≤ (current_usage : Int) then
              (false, "Limit reached: " ++ toString current_usage ++ "/"
                ++ toString limit.max_uses ++ " per " ++ limit.period)
            else
              (true, toString (limit.max_uses - (current_usage : Int))
                ++ " uses remaining this " ++ limit.period)

/-- Embedding of `AIService.get_model` (services.py lines 62-79): explicit
active model by id, else the feature's active default model, else the
first active default-flagged model (`.filter(...).first()`; list order
stands for the queryset ordering). -/
def get_model (db : Db) (model_id : Option String)
    (feature_code : Option String) : Option AIModelRec :=
  let globalDefault := db.models.find? (fun m => m.is_active && m.is_default)
  let featureDefault :=
    match feature_code with
    | some code =>
        match db.features.find? (fun f => f.code == code) with
        | some f =>
            match f.default_model with
            | some m => if m.is_active then some m else none
            | none => none
        | none => none
    | none => none
  let fallback :=
    match featureDefault with
    | some m => some m
    | none => globalDefault
  match model_id with
  | some mid =>
      match db.models.find? (fun m => m.model_id == mid && m.is_active) with
      | some m => some m
      | none => fallback
  | none => fallback

/-- Result of a provider call (`{text, input_tokens, output_tokens}`). -/
structure GenResult where
  text : String
  input_tokens : Nat
  output_tokens : Nat
deriving DecidableEq, Repr

/-- Outcome of the provider call inside `generate`'s try block: success
with token counts, or any raised exception (provider error, unsupported
provider, quota error) with its message. -/
inductive ProviderOutcome where
  | ok (result : GenResult)
  | fail (error_message : String)
deriving DecidableEq, Repr

/-- Embedding of `AIService.log_usage` (services.py lines 29-60): appends
one `AIUsageLog` row with the computed cost
`(input/1000 * input_cost + output/1000 * output_cost) * 100` cents. -/
def log_usage (db : Db) (u : UserRow) (feature_code : String)
    (m : AIModelRec) (input_tokens output_tokens : Nat) (success : Bool)
    (error_message : String) (now : Int) : Db :=
  let cost := (input_tokens : Rat) / 1000 * m.input_cost_per_1k
    + (output_tokens : Rat) / 1000 * m.output_cost_per_1k
  { db with logs :=
      { user := u.id, feature_code := feature_code,
        input_tokens := input_tokens, output_tokens := output_tokens,
        cost_cents := cost * 100, success := success,
        error_message := error_message, created_at := now } :: db.logs }

/-- Embedding of `AIService.generate` (services.py lines 81-138):
(1) check the limit and raise `AILimitError` without logging when denied;
(2) resolve the model, raising `AIServiceError` without logging when none
is available; (3) run the provider call; (4) log a success row with the
returned token counts, or a `success=False` row with zero token counts
and the error message before re-raising. -/
def generate (db : Db) (u : UserRow) (feature_code : String)
    (model_id : Option String) (now : Int) (outcome : ProviderOutcome) :
    Except String GenResult × Db :=
  let checked := can_use_feature db u feature_code now
  if !checked.1 then
    (Except.error ("AILimitError: " ++ checked.2), db)
  else
    match get_model db model_id (some feature_code) with
    | none => (Except.error "No active AI model available", db)
    | some m =>
        match outcome with
        | ProviderOutcome.ok result =>
            (Except.ok result,
             log_usage db u feature_code m result.input_tokens
               result.output_tokens true "" now)
        | ProviderOutcome.fail e =>
            (Except.error e,
             log_usage db u feature_code m 0 0 false e now)

/-- Concrete rows exercising the limit scenario of the claims. -/
def sampleModel : AIModelRec :=
  { model_id := "gemini-2.0-flash", provider_name := "gemini",
    is_active := true, is_default := true, max_tokens := 8192,
    input_cost_per_1k := 0, output_cost_per_1k := 0 }

def sampleFeature : AIFeatureRec :=
  { code := "improve_instruction", is_active := true,
    default_model := some sampleModel }

def sampleLimit : AIUsageLimitRec :=
  { plan := "FREE", feature_code := "improve_instruction", max_uses := 3,
    period := "weekly", is_unlimited := false }

def sampleUser : UserRow := { id := 7, plan := "FREE" }

/-- A successful usage-log row at the given time. -/
def okLog (t : Int) : AIUsageLogRec :=
  { user := 7, feature_code := "improve_instruction", input_tokens := 10,
    output_tokens := 20, cost_cents := 0, success := true,
    error_message := "", created_at := t }

/-- Database with three successful uses inside the weekly window of
`now = 1000`. -/
def exhaustedDb : Db :=
  { features := [sampleFeature], limits := [sampleLimit],
    models := [sampleModel], logs := [okLog 100, okLog 200, okLog 300] }

/-- Database with two prior successful uses: the limit check passes. -/
def openDb : Db :=
  { features := [sampleFeature], limits := [sampleLimit],
    models := [sampleModel], logs := [okLog 100, okLog 200] }

end AISettings

/- ================================================================
   Section 5: chat session cache update
   Source: src/backend/apps/chat/models.py (`ChatSession`, `ChatMessage`).
   ================================================================ -/

namespace ChatModels

/-- The `ChatSession` columns touched by the message-save side effect. -/
structure ChatSessionRow where
  id : Nat
  last_message : String
  updated_at : Int
deriving DecidableEq, Repr

/-- The `ChatMessage` columns read by its `save` override. -/
structure ChatMessageRow where
  session_id : Nat
  role : String
  content : String
  timestamp : Int
deriving DecidableEq, Repr

/-- Python slicing `content[:200]` by code points. -/
def pySlice (s : String) (n : Nat) : String :=
  String.mk (s.toList.take n)

/-- Django semantics of `session.save(update_fields=['last_message',
'updated_at'])`: `ChatSession.updated_at` is declared with `auto_now=True`
(chat/models.py line 47), and Django's `DateTimeField.pre_save` overwrites
an `auto_now` field with `timezone.now()` on every save, discarding any
value assigned to the instance.  `assignedUpdatedAt` is therefore ignored
and `saveTime` — the wall clock at the moment of the save — is stored. -/
def sessionSaveCacheFields (s : ChatSessionRow) (lastMessage : String)
    (assignedUpdatedAt : Int) (saveTime : Int) : ChatSessionRow :=
  let _ := assignedUpdatedAt
  { s with last_message := lastMessage, updated_at := saveTime }

/-- Embedding of `ChatMessage.save` (chat/models.py lines 132-138) as it
affects the parent session: assigns `session.last_message =
self.content[:200]` and `session.updated_at = self.timestamp`, then saves
the session with `update_fields=['last_message', 'updated_at']`. -/
def chatMessageSave (m : ChatMessageRow) (s : ChatSessionRow)
    (saveTime : Int) : ChatSessionRow :=
  sessionSaveCacheFields s (pySlice m.content 200) m.timestamp saveTime

end ChatModels

/- ================================================================
   Section 6: user plan derivation
   Source: src/backend/apps/accounts/models.py (`User.plan`).
   ================================================================ -/

namespace Accounts

/-- Row of `Tenant` as far as plan derivation reads it. -/
structure TenantRow where
  name : String
  slug : String
  plan : String
  max_bots : Int
  max_messages_per_month : Int
  messages_used : Int
deriving DecidableEq, Repr

/-- Row of `User` (accounts/models.py lines 135-187): the model has no
per-user plan column — migration 0004 removed it when tenants were
introduced. -/
structure UserRow where
  email : String
  name : String
  tenant : Option TenantRow
  telegram_id : Option Int
  is_active : Bool
  is_staff : Bool
deriving DecidableEq, Repr

/-- Embedding of the `User.plan` property (accounts/models.py lines
181-184): `self.tenant.plan if self.tenant else 'FREE'` — the tenantless
fallback is the constant string `'FREE'`. -/
def userPlan (u : UserRow) : String :=
  match u.tenant with
  | some t => t.plan
  | none => "FREE"

/-- Modelled from the spec: the claim's reading of the property — the
tenant's plan when a tenant is set, "else a per-user fallback plan field".
The source `User` model has no such field, so this spec-side definition
takes the posited per-user fallback value as an argument. -/
def specUserPlan (tenant : Option TenantRow) (fallback_plan : String) :
    String :=
  match tenant with
  | some t => t.plan
  | none => fallback_plan

/-- A tenantless user used in the concrete evaluations. -/
def tenantlessUser : UserRow :=
  { email := "owner@example.com", name := "Owner", tenant := none,
    telegram_id := some 42, is_active := true, is_staff := false }

end Accounts

/- ================================================================
   Section 7: bot worker polling lifecycle
   Source: src/bot/services/bot_manager.py (`BotManager`).
   ================================================================ -/

namespace BotManager

/-- An asyncio task handle: identity plus its `done()` flag.  A freshly
created task is not done. -/
structure TaskRec where
  task_id : Nat
  done : Bool
deriving DecidableEq, Repr

/-- The manager's mutable state: `running_bots` (token → task) and
`bot_instances` (token → bot client, identified by a handle), plus a
counter providing fresh task identities.  All `add_bot`/`remove_bot`
mutations run under the single `self._lock`, so they are modelled as
atomic state transitions. -/
structure ManagerState where
  running_bots : List (String × TaskRec)
  bot_instances : List (String × Nat)
  next_task_id : Nat
deriving DecidableEq, Repr

/-- Python dict lookup `self.running_bots[token]` / membership test. -/
def lookupTask (m : List (String × TaskRec)) (token : String) :
    Option TaskRec :=
  (m.find? (fun p => p.1 == token)).map Prod.snd

/-- Python `del d[token]` on the token-keyed dicts. -/
def removeTaskKey (m : List (String × TaskRec)) (token : String) :
    List (String × TaskRec) :=
  m.filter (fun p => p.1 != token)

/-- The tail of `add_bot`: `asyncio.create_task(...)` then
`self.running_bots[telegram_token] = task` — a fresh, not-done task is
registered under the token (absent from the map at this point). -/
def createAndRegisterTask (st : ManagerState) (telegram_token : String) :
    Bool × ManagerState :=
  (true,
   { st with
     running_bots := (telegram_token,
       { task_id := st.next_task_id, done := false }) :: st.running_bots,
     next_task_id := st.next_task_id + 1 })

/-- Embedding of `BotManager.add_bot` (bot_manager.py lines 31-58): if a
task is already registered for the token and is not done, return `False`
without touching anything; if a completed task is registered, drop it (and
the bot instance) and start a new one; otherwise start a new task. -/
def add_bot (st : ManagerState) (telegram_token : String)
    (bot_name : String) : Bool × ManagerState :=
  let _ := bot_name
  match lookupTask st.running_bots telegram_token with
  | some task =>
      if !task.done then
        (false, st)
      else
        let cleaned :=
          { st with
            running_bots := removeTaskKey st.running_bots telegram_token,
            bot_instances :=
              st.bot_instances.filter (fun p => p.1 != telegram_token) }
        createAndRegisterTask cleaned telegram_token
  | none => createAndRegisterTask st telegram_token

/-- Embedding of `BotManager.is_running` (bot_manager.py lines 162-176). -/
def is_running (st : ManagerState) (telegram_token : String) : Bool :=
  match lookupTask st.running_bots telegram_token with
  | none => false
  | some task => !task.done

/-- Size of `get_running_bots()` (bot_manager.py lines 178-189): the
tokens whose task is not done (dict keys are unique, so the filter length
is the set size). -/
def runningBotsCount (st : ManagerState) : Nat :=
  (st.running_bots.filter (fun p => !p.2.done)).length

/-- A manager state with one live polling task. -/
def oneRunningState : ManagerState :=
  { running_bots := [("123456789:tok", { task_id := 0, done := false })],
    bot_instances := [("123456789:tok", 0)],
    next_task_id := 1 }

end BotManager

/-- C1: the claim states that a POST for an active bot with
`delivery_mode='polling'` is answered with status 400, while the same bot
in `delivery_mode='webhook'` gets 200 with body `OK`.  The code violates
the first half: `telegram_webhook_by_id` answers 200 with body `OK` for the
polling-mode bot as well (webhook_views.py lines 100-106, "Still return 200
to prevent Telegram retries"), even though the repository's own test
`DeliveryModeWebhookTest.test_webhook_rejects_polling_mode_bots` asserts
status 400 for exactly this request.  This theorem evaluates the embedded
view at the failing input: the polling-mode bot receives 200/`OK`, not 400,
and the webhook-mode bot receives 200/`OK` as the claim says. -/
theorem webhook_polling_mode_returns_200_not_400 :
    (Webhook.telegram_webhook_by_id Webhook.sampleDb 1
        (Webhook.reqWithHeader (some "polling_secret_123")) true
      = { status := 200, body := "OK" })
    ∧ (Webhook.telegram_webhook_by_id Webhook.sampleDb 1
        (Webhook.reqWithHeader (some "polling_secret_123")) true).status ≠ 400
    ∧ (Webhook.telegram_webhook_by_id Webhook.sampleDb 2
        (Webhook.reqWithHeader (some "webhook_secret_123")) true
      = { status := 200, body := "OK" }) := by
  refine ⟨rfl, by decide, rfl⟩

/-- C7: the claim states that an unknown bot id and an inactive bot both
receive HTTP 404, indistinguishably.  The code does make the two cases
indistinguishable, but answers with `HttpResponseForbidden` — status 403,
body `Bot not found or inactive` (webhook_views.py lines 239-241) — while
the repository's own tests `test_webhook_requires_valid_bot` and
`test_webhook_requires_active_bot` assert 404.  This theorem evaluates the
embedded view at both failing inputs: unknown id 99 and the paused bot id 3
produce identical responses with status 403, not 404. -/
theorem webhook_unknown_and_inactive_return_403_not_404 :
    (Webhook.telegram_webhook_by_id Webhook.sampleDb 99
        (Webhook.reqWithHeader none) true
      = { status := 403, body := "Bot not found or inactive" })
    ∧ (Webhook.telegram_webhook_by_id Webhook.sampleDb 3
        (Webhook.reqWithHeader none) true
      = Webhook.telegram_webhook_by_id Webhook.sampleDb 99
        (Webhook.reqWithHeader none) true)
    ∧ (Webhook.telegram_webhook_by_id Webhook.sampleDb 3
        (Webhook.reqWithHeader none) true).status ≠ 404 := by
  refine ⟨rfl, rfl, by decide⟩

/-- C2 counterexample: the claim states that when a webhook secret is
configured, a request is rejected unless the `X-Telegram-Bot-Api-Secret-Token`
header is present and equal to the secret.  The code accepts a request with
the header entirely absent: bot 2 has secret `webhook_secret_123`, the
request carries no header, and the response is 200/`OK`, not a 401/403
rejection (webhook_views.py lines 136-138: the comparison only runs
`if telegram_signature:`). -/
theorem webhook_missing_header_accepted_despite_secret :
    (Webhook.telegram_webhook_by_id Webhook.sampleDb 2
        (Webhook.reqWithHeader none) true
      = { status := 200, body := "OK" })
    ∧ Webhook.webhookBot.webhook_secret ≠ ""
    ∧ (Webhook.telegram_webhook_by_id Webhook.sampleDb 2
        (Webhook.reqWithHeader none) true).status ≠ 401
    ∧ (Webhook.telegram_webhook_by_id Webhook.sampleDb 2
        (Webhook.reqWithHeader none) true).status ≠ 403 := by
  refine ⟨rfl, by decide, by decide, by decide⟩

/-- C2 (amended): for an active webhook-mode bot with a configured secret
and a well-formed body, a request whose header is present, non-empty and
different from the secret is rejected with 403; an exactly matching header
is accepted with 200/`OK`; a request with the header absent (or empty) is
accepted despite the configured secret; and when no secret is configured
any request is accepted. -/
theorem webhook_signature_check_amended
    (db : List Webhook.BotRow) (botId : Nat) (bot : Webhook.BotRow)
    (upd : Webhook.UpdateData) (hdr : Option String) (procOk : Bool)
    (hfind : Webhook.getActiveBot db botId = some bot)
    (hmode : bot.delivery_mode = "webhook")
    (hvalid : upd.update_valid = true) :
    let respond := fun h => Webhook.telegram_webhook_by_id db botId
      { method := Webhook.Method.post, body := some upd, secretHeader := h }
      procOk
    ((∀ sig, bot.webhook_secret ≠ "" → hdr = some sig → sig ≠ "" →
        sig ≠ bot.webhook_secret →
        respond hdr = { status := 403, body := "Invalid signature" })
    ∧ (bot.webhook_secret ≠ "" →
        respond (some bot.webhook_secret) = { status := 200, body := "OK" })
    ∧ respond none = { status := 200, body := "OK" }
    ∧ (bot.webhook_secret = "" →
        respond hdr = { status := 200, body := "OK" })) := by
  intro respond
  have hresp : ∀ h, respond h = Webhook.telegram_webhook_by_id db botId
      { method := Webhook.Method.post, body := some upd, secretHeader := h }
      procOk := fun _ => rfl
  refine ⟨?_, ?_, ?_, ?_⟩
  · intro sig hsec hh hne hneq
    subst hh
    rw [hresp]
    have hsig : Webhook.signatureOk bot.webhook_secret (some sig) = false := by
      simp only [Webhook.signatureOk]
      simp [hsec, hne, hneq]
    simp [Webhook.telegram_webhook_by_id, hfind, hmode, hsig, hvalid]
  · intro hsec
    rw [hresp]
    simp [Webhook.telegram_webhook_by_id, hfind, hmode,
      Webhook.signatureOk, hvalid]
  · rw [hresp]
    simp [Webhook.telegram_webhook_by_id, hfind, hmode,
      Webhook.signatureOk, hvalid]
  · intro hs
    rw [hresp]
    simp [Webhook.telegram_webhook_by_id, hfind, hmode,
      Webhook.signatureOk, hs, hvalid]

/-- C2 amended-theorem witness: the amended signature behaviour evaluated
at the concrete sample database, bot 2 and a wrong header. -/
theorem webhook_signature_check_amended_witness :
    Webhook.telegram_webhook_by_id Webhook.sampleDb 2
        (Webhook.reqWithHeader (some "wrong_secret")) true
      = { status := 403, body := "Invalid signature" } := by
  have h := webhook_signature_check_amended Webhook.sampleDb 2
    Webhook.webhookBot { update_id := 123456789, update_valid := true }
    (some "wrong_secret") true rfl rfl rfl
  exact h.1 "wrong_secret" (by decide) rfl (by decide) (by decide)

/-- C3: for every string `s`, `decrypt_token (encrypt_token s) = s`, and
both functions fail open: with the cipher unavailable (`ImportError`
fallback) each returns its input unchanged, and `decrypt_token` of an
input that the cipher cannot decrypt returns it unchanged. -/
theorem encrypt_token_round_trip_and_fail_open :
    (∀ (c? : Option CoreUtils.Cipher) (s : String),
        CoreUtils.decrypt_token c? (CoreUtils.encrypt_token c? s) = s)
    ∧ (∀ s : String, CoreUtils.encrypt_token none s = s)
    ∧ (∀ s : String, CoreUtils.decrypt_token none s = s)
    ∧ (∀ (c : CoreUtils.Cipher) (t : String), c.dec t = none →
        CoreUtils.decrypt_token (some c) t = t) := by
  refine ⟨?_, fun _ => rfl, fun _ => rfl, ?_⟩
  · intro c? s
    match c? with
    | none => rfl
    | some c =>
        by_cases hs : s = ""
        · subst hs; rfl
        · simp only [CoreUtils.encrypt_token, CoreUtils.decrypt_token,
            if_neg hs, if_neg (c.enc_ne s), c.dec_enc]
  · intro c t hdec
    by_cases ht : t = ""
    · subst ht; rfl
    · simp only [CoreUtils.decrypt_token, if_neg ht, hdec]

/-- C3 witness: the round trip and both fail-open behaviours evaluated at
the concrete toy cipher and concrete strings. -/
theorem encrypt_token_round_trip_witness :
    CoreUtils.decrypt_token (some CoreUtils.toyCipher)
        (CoreUtils.encrypt_token (some CoreUtils.toyCipher)
          "123456789:SECRETSECRETSECRETSECRETSECRETSECRE")
      = "123456789:SECRETSECRETSECRETSECRETSECRETSECRE"
    ∧ CoreUtils.encrypt_token none "legacy-plain-value" = "legacy-plain-value"
    ∧ CoreUtils.decrypt_token (some CoreUtils.toyCipher) "legacy-plain-value"
      = "legacy-plain-value" :=
  ⟨encrypt_token_round_trip_and_fail_open.1 (some CoreUtils.toyCipher) _,
   encrypt_token_round_trip_and_fail_open.2.1 _,
   encrypt_token_round_trip_and_fail_open.2.2.2 CoreUtils.toyCipher
     "legacy-plain-value" rfl⟩

/-- Helper: `takeWhile (· != ':')` of a colon-free part followed by an
explicit colon returns exactly the colon-free part. -/
theorem takeWhile_colon_append (a b : List Char)
    (ha : ∀ c ∈ a, (c != ':') = true) :
    (a ++ ':' :: b).takeWhile (fun c => c != ':') = a := by
  induction a with
  | nil => simp [List.takeWhile_cons]
  | cons x xs ih =>
      have hx : (x != ':') = true := ha x (List.mem_cons_self x xs)
      simp [List.takeWhile_cons, hx,
        ih (fun c hc => ha c (List.mem_cons_of_mem x hc))]

/-- Helper: `dropWhile (· != ':')` of the same shape returns the colon and
everything after it. -/
theorem dropWhile_colon_append (a b : List Char)
    (ha : ∀ c ∈ a, (c != ':') = true) :
    (a ++ ':' :: b).dropWhile (fun c => c != ':') = ':' :: b := by
  induction a with
  | nil => simp [List.dropWhile_cons]
  | cons x xs ih =>
      have hx : (x != ':') = true := ha x (List.mem_cons_self x xs)
      simp [List.dropWhile_cons, hx,
        ih (fun c hc => ha c (List.mem_cons_of_mem x hc))]

/-- Helper: a character list whose colon filter is empty is colon-free. -/
theorem no_colon_of_filter_len_zero (l : List Char)
    (h : (l.filter (fun c => c == ':')).length = 0) :
    ∀ c ∈ l, (c != ':') = true := by
  intro c hc
  have h2 := (List.filter_eq_nil_iff.mp (List.length_eq_zero.mp h)) c hc
  simp only [bne]
  exact (Bool.not_eq_true' _).mpr (Bool.not_eq_true _ |>.mp h2) |>.symm ▸ by
    cases hb : (c == ':') with
    | true => exact absurd hb h2
    | false => simp [hb]

/-- Helper: a character list with exactly one colon splits as a colon-free
part, the colon, and a second colon-free part. -/
theorem colon_split (l : List Char)
    (h : (l.filter (fun c => c == ':')).length = 1) :
    ∃ a b, l = a ++ ':' :: b
      ∧ (∀ c ∈ a, (c != ':') = true) ∧ (∀ c ∈ b, (c != ':') = true) := by
  induction l with
  | nil => simp at h
  | cons x xs ih =>
      by_cases hx : x = ':'
      · subst hx
        have h0 : (xs.filter (fun c => c == ':')).length = 0 := by
          rw [List.filter_cons] at h
          simpa using h
        exact ⟨[], xs, rfl, by simp, no_colon_of_filter_len_zero xs h0⟩
      · have hxne : (x == ':') = false := beq_eq_false_iff_ne.mpr hx
        have h1 : (xs.filter (fun c => c == ':')).length = 1 := by
          rw [List.filter_cons] at h
          simpa [hxne] using h
        obtain ⟨a, b, hl, ha, hb⟩ := ih h1
        refine ⟨x :: a, b, by rw [hl]; rfl, ?_, hb⟩
        intro c hc
        rcases List.mem_cons.mp hc with rfl | hc
        · simpa [bne] using hxne
        · exact ha c hc

/-- Helper: a decimal digit is never a colon. -/
theorem digit_bne_colon (c : Char) (h : c.isDigit = true) : (c != ':') = true := by
  rcases eq_or_ne c ':' with rfl | hne
  · exact absurd h (by decide)
  · simpa [bne] using beq_eq_false_iff_ne.mpr hne

/-- Helper: the plain-token validator passes exactly on the pattern
`^\d{10}:[^:]{35}$`. -/
theorem validatePlain_eq_none_iff (t : String) :
    BotsModels.validatePlain t = none ↔ BotsModels.amendedPattern t = true := by
  have hlen : t.toList.length = t.length := rfl
  constructor
  · intro h
    by_cases hc : BotsModels.colonCount t ≠ 1
    · simp [BotsModels.validatePlain, hc] at h
    · have hc1 : (t.toList.filter (fun c => c == ':')).length = 1 :=
        not_not.mp hc
      obtain ⟨a, b, hl, ha, hb⟩ := colon_split t.toList hc1
      have hta : t.toList.takeWhile (fun c => c != ':') = a := by
        rw [hl]; exact takeWhile_colon_append a b ha
      have htb : (t.toList.dropWhile (fun c => c != ':')).tail = b := by
        rw [hl, dropWhile_colon_append a b ha]
        rfl
      simp only [BotsModels.validatePlain, if_neg hc, hta, htb] at h
      split_ifs at h with h1 h2 h3
      push_neg at h1
      obtain ⟨hdig, h9, h10⟩ := h1
      have hdig' : BotsModels.isPyDigits a = true := by
        cases hbd : BotsModels.isPyDigits a with
        | true => rfl
        | false => exact absurd hbd hdig
      have hb35 : b.length = 35 := not_not.mp h2
      have ht46 : t.length = 46 := not_not.mp h3
      have hlensum : t.toList.length = a.length + 1 + b.length := by
        rw [hl, List.length_append, List.length_cons]
        omega
      have ha10 : a.length = 10 := by
        rw [hlen, ht46, hb35] at hlensum
        omega
      have htake : t.toList.take 10 = a := by
        rw [hl, ← ha10, List.take_left]
      have hget : t.toList.get? 10 = some ':' := by
        rw [hl, ← ha10, List.get?_append_right (le_refl a.length)]
        simp
      have hdrop : t.toList.drop 11 = b := by
        have hsplit : a ++ ':' :: b = (a ++ [':']) ++ b := by simp
        have h11 : ((a ++ [':']).length) = 11 := by
          simp [List.length_append, ha10]
        rw [hl, hsplit, ← h11, List.drop_left]
      have hall : a.all Char.isDigit = true := by
        simp only [BotsModels.isPyDigits, Bool.and_eq_true] at hdig'
        exact hdig'.2
      have h46' : t.toList.length = 46 := by rw [hlen, ht46]
      have hball : b.all (fun c => c != ':') = true := List.all_eq_true.mpr hb
      simp only [BotsModels.amendedPattern, h46', htake, hget, hdrop]
      simp [hall, hball]
  · intro hp
    simp only [BotsModels.amendedPattern, Bool.and_eq_true, beq_iff_eq,
      List.all_eq_true] at hp
    obtain ⟨⟨⟨h46, hdig⟩, hget⟩, hnb⟩ := hp
    have h10lt : (10 : Nat) < t.toList.length := by
      rw [h46]
      omega
    have hgetv : t.toList.get ⟨10, h10lt⟩ = ':' := by
      have hq := List.get?_eq_get h10lt
      rw [hq] at hget
      exact Option.some_injective _ hget
    have h2 : t.toList.drop 10 = ':' :: t.toList.drop 11 := by
      have h2' := List.drop_eq_get_cons h10lt
      rw [hgetv] at h2'
      norm_num at h2'
      exact h2'
    have hdecomp : t.toList = t.toList.take 10 ++ ':' :: t.toList.drop 11 := by
      conv_lhs => rw [← List.take_append_drop 10 t.toList]
      rw [h2]
    have hano : ∀ c ∈ t.toList.take 10, (c != ':') = true :=
      fun c hc => digit_bne_colon c (hdig c hc)
    have hcount : BotsModels.colonCount t = 1 := by
      show (t.toList.filter (fun c => c == ':')).length = 1
      conv_lhs => rw [hdecomp]
      rw [List.filter_append, List.filter_cons]
      have hfa : (t.toList.take 10).filter (fun c => c == ':') = [] := by
        rw [List.filter_eq_nil_iff]
        intro c hc
        have h' := hano c hc
        simp only [bne, Bool.not_eq_true'] at h'
        simp [h']
      have hfb : (t.toList.drop 11).filter (fun c => c == ':') = [] := by
        rw [List.filter_eq_nil_iff]
        intro c hc
        have h' := hnb c hc
        simp only [bne, Bool.not_eq_true'] at h'
        simp [h']
      rw [hfa, hfb]
      simp
    have hta : t.toList.takeWhile (fun c => c != ':') = t.toList.take 10 := by
      conv_lhs => rw [hdecomp]
      exact takeWhile_colon_append _ _ hano
    have htb : (t.toList.dropWhile (fun c => c != ':')).tail
        = t.toList.drop 11 := by
      conv_lhs => rw [hdecomp]
      rw [dropWhile_colon_append _ _ hano]
      rfl
    have htklen : (t.toList.take 10).length = 10 := by
      rw [List.length_take, h46]
      decide
    have hdig10 : BotsModels.isPyDigits (t.toList.take 10) = true := by
      simp only [BotsModels.isPyDigits, Bool.and_eq_true, List.all_eq_true]
      refine ⟨?_, hdig⟩
      cases h10 : t.toList.take 10 with
      | nil =>
          rw [h10] at htklen
          simp at htklen
      | cons x xs => simp
    have hdroplen : (t.toList.drop 11).length = 35 := by
      rw [List.length_drop, h46]
    have ht46 : t.length = 46 := by rw [← hlen, h46]
    simp only [BotsModels.validatePlain, hcount, hta, htb]
    simp [hdig10, htklen, hdroplen, ht46]
    exact hdig10

/-- C6 counterexample: the claim says `Bot.clean` accepts exactly the
strings matching `^\d{9,10}:.{35}$`.  It does not: the claim's own example
shape — 9 digits, a colon, 35 arbitrary characters (45 characters, not the
claimed 46) — matches the regex but is rejected by the final
`len(token) != 46` check, and a 46-character match whose 35-character
secret contains a colon is rejected by the exactly-one-colon check. -/
theorem telegram_token_regex_counterexample :
    BotsModels.matchesSpecRegex BotsModels.tok45 = true
    ∧ BotsModels.cleanAccepts BotsModels.tok45 = false
    ∧ BotsModels.matchesSpecRegex BotsModels.tok46colon = true
    ∧ BotsModels.cleanAccepts BotsModels.tok46colon = false := by
  refine ⟨rfl, rfl, rfl, rfl⟩

/-- C6 (amended): `Bot.clean` accepts exactly the empty token, tokens
already carrying the ciphertext marker `gAAAAAB` (validation skipped), and
tokens whose stripped form matches `^\d{10}:[^:]{35}$` (46 characters:
10-digit bot id, colon, 35-character colon-free secret); in particular
`12345:short` and plaintext strings with more than one colon are rejected,
and `Bot.save` never re-encrypts a ciphertext-prefixed token. -/
theorem telegram_token_validation_amended :
    (∀ s : String, BotsModels.cleanAccepts s = true ↔
        (s = "" ∨ BotsModels.pyStartsWith s "gAAAAAB" = true
          ∨ BotsModels.amendedPattern (BotsModels.pyStrip s) = true))
    ∧ BotsModels.cleanAccepts "12345:short" = false
    ∧ BotsModels.cleanAccepts BotsModels.tok46ok = true
    ∧ (∀ (c? : Option CoreUtils.Cipher) (tok : String),
        BotsModels.pyStartsWith tok "gAAAAAB" = true →
        BotsModels.save_token c? tok = tok) := by
  refine ⟨?_, rfl, rfl, ?_⟩
  · intro s
    by_cases h0 : s = ""
    · simp [BotsModels.cleanAccepts, BotsModels.clean, h0]
    · cases h1 : BotsModels.pyStartsWith s "gAAAAAB" with
      | true => simp [BotsModels.cleanAccepts, BotsModels.clean, h0, h1]
      | false =>
          have : BotsModels.cleanAccepts s
              = (BotsModels.validatePlain (BotsModels.pyStrip s)).isNone := by
            simp [BotsModels.cleanAccepts, BotsModels.clean, h0, h1]
          rw [this]
          simp only [h0, h1, false_or, Bool.false_eq_true]
          rw [← validatePlain_eq_none_iff]
          cases hv : BotsModels.validatePlain (BotsModels.pyStrip s) <;>
            simp [hv]
  · intro c? tok h
    simp [BotsModels.save_token, h]

/-- C6 amended-theorem witness: the characterization applied to the
concrete accepted token and the save behaviour applied to a concrete
ciphertext-prefixed token. -/
theorem telegram_token_validation_amended_witness :
    (BotsModels.pyStartsWith "gAAAAABexample" "gAAAAAB" = true
      ∧ BotsModels.save_token none "gAAAAABexample" = "gAAAAABexample")
    ∧ BotsModels.amendedPattern (BotsModels.pyStrip BotsModels.tok46ok)
      = true :=
  ⟨⟨rfl, telegram_token_validation_amended.2.2.2 none "gAAAAABexample" rfl⟩,
   (((telegram_token_validation_amended.1 BotsModels.tok46ok).mp
       telegram_token_validation_amended.2.2.1).resolve_left
         (by decide)).resolve_left (by decide)⟩

/-- C10: `can_use_feature` fails closed on missing configuration — when
the feature does not exist (or is inactive, making the active-feature
lookup miss) the result is `(False, "Feature not available")`, and when no
`AIUsageLimit` row exists for the pair (user's plan, feature) the result
is `(False, "No limit configured for your plan")`. -/
theorem ai_limit_fails_closed :
    (∀ (db : AISettings.Db) (u : AISettings.UserRow) (code : String)
        (now : Int),
      db.features.find? (fun f => f.code == code && f.is_active) = none →
      AISettings.can_use_feature db u code now
        = (false, "Feature not available"))
    ∧ (∀ (db : AISettings.Db) (u : AISettings.UserRow) (code : String)
        (now : Int) (feat : AISettings.AIFeatureRec),
      db.features.find? (fun f => f.code == code && f.is_active) = some feat →
      db.limits.find? (fun l =>
        l.plan == u.plan && l.feature_code == feat.code) = none →
      AISettings.can_use_feature db u code now
        = (false, "No limit configured for your plan")) := by
  constructor
  · intro db u code now h
    simp [AISettings.can_use_feature, h]
  · intro db u code now feat hf hl
    simp [AISettings.can_use_feature, hf, hl]

/-- C10 witness: a feature code with no configured feature row, and a
configured feature whose plan has no limit row. -/
theorem ai_limit_fails_closed_witness :
    AISettings.can_use_feature AISettings.exhaustedDb AISettings.sampleUser
        "generate_content" 1000 = (false, "Feature not available")
    ∧ AISettings.can_use_feature
        { features := [AISettings.sampleFeature], limits := [],
          models := [AISettings.sampleModel], logs := [] }
        AISettings.sampleUser "improve_instruction" 1000
      = (false, "No limit configured for your plan") :=
  ⟨ai_limit_fails_closed.1 _ _ _ _ rfl,
   ai_limit_fails_closed.2 _ _ _ _ AISettings.sampleFeature rfl rfl⟩

/-- C5: the claim states that saving a ChatMessage sets the parent
session's `last_message` to the first 200 characters of the content (which
holds) and its `updated_at` to the message's `timestamp`.  The second part
fails: `ChatSession.updated_at` is declared `auto_now=True`, so Django
overwrites the assigned `self.timestamp` with the wall-clock save time on
the `session.save(...)` call — the assignment in `ChatMessage.save` is
dead.  At the failing input (message timestamp 5, save at time 7) the
session ends with `updated_at = 7 ≠ 5`. -/
theorem chat_session_cache_updated_at_bug :
    (∀ (m : ChatModels.ChatMessageRow) (s : ChatModels.ChatSessionRow)
        (saveTime : Int),
      (ChatModels.chatMessageSave m s saveTime).last_message
        = ChatModels.pySlice m.content 200
      ∧ (ChatModels.chatMessageSave m s saveTime).updated_at = saveTime)
    ∧ ((ChatModels.chatMessageSave
          { session_id := 1, role := "user", content := "Hello bot!",
            timestamp := 5 }
          { id := 1, last_message := "", updated_at := 0 } 7).last_message
        = "Hello bot!"
      ∧ (ChatModels.chatMessageSave
          { session_id := 1, role := "user", content := "Hello bot!",
            timestamp := 5 }
          { id := 1, last_message := "", updated_at := 0 } 7).updated_at = 7
      ∧ (ChatModels.chatMessageSave
          { session_id := 1, role := "user", content := "Hello bot!",
            timestamp := 5 }
          { id := 1, last_message := "", updated_at := 0 } 7).updated_at
        ≠ (5 : Int)) := by
  exact ⟨fun m s saveTime => ⟨rfl, rfl⟩, rfl, rfl, by decide⟩

/-- C8 counterexample: the claim states that a user without a tenant gets
the value of a per-user fallback plan field.  The source `User` model has
no per-user plan field (migration 0004 removed it): `User.plan` returns
the constant `'FREE'` for every tenantless user, which differs from the
spec-modelled per-user fallback whenever that fallback is not `'FREE'`
(here `'PRO'`). -/
theorem user_plan_fallback_field_counterexample :
    Accounts.userPlan Accounts.tenantlessUser = "FREE"
    ∧ Accounts.specUserPlan Accounts.tenantlessUser.tenant "PRO" = "PRO"
    ∧ Accounts.userPlan Accounts.tenantlessUser
      ≠ Accounts.specUserPlan Accounts.tenantlessUser.tenant "PRO" :=
  ⟨rfl, rfl, by decide⟩

/-- C8 (amended): `User.plan` equals the tenant's plan when the user has a
tenant, and otherwise equals the constant `'FREE'` — in particular it does
not depend on any per-user data for tenantless users. -/
theorem user_plan_amended :
    (∀ (u : Accounts.UserRow) (t : Accounts.TenantRow),
        u.tenant = some t → Accounts.userPlan u = t.plan)
    ∧ (∀ u : Accounts.UserRow, u.tenant = none → Accounts.userPlan u = "FREE")
    ∧ (∀ u v : Accounts.UserRow, u.tenant = none → v.tenant = none →
        Accounts.userPlan u = Accounts.userPlan v) := by
  refine ⟨?_, ?_, ?_⟩
  · intro u t h
    simp [Accounts.userPlan, h]
  · intro u h
    simp [Accounts.userPlan, h]
  · intro u v hu hv
    simp [Accounts.userPlan, hu, hv]

/-- C8 amended-theorem witness: the derivation at a tenantless user and at
a user with a PRO tenant. -/
theorem user_plan_amended_witness :
    Accounts.userPlan Accounts.tenantlessUser = "FREE"
    ∧ Accounts.userPlan
        { email := "owner@example.com", name := "Owner",
          tenant := some ⟨"Acme", "acme", "PRO", 5, 1000, 0⟩,
          telegram_id := some 42, is_active := true, is_staff := false }
      = "PRO" :=
  ⟨user_plan_amended.2.1 _ rfl, user_plan_amended.1 _ _ rfl⟩

/-- C9: calling `add_bot` again for a token whose registered task is still
running performs no second registration — the call returns `False` and
leaves the state (hence the running-bots map and the running-bot count)
unchanged; consequently two consecutive `add_bot` calls with the same
token register only once, and the second call changes nothing. -/
theorem add_bot_idempotent :
    (∀ (st : BotManager.ManagerState) (token name2 : String),
        BotManager.is_running st token = true →
        BotManager.add_bot st token name2 = (false, st))
    ∧ (∀ (st : BotManager.ManagerState) (token n1 n2 : String),
        BotManager.is_running (BotManager.add_bot st token n1).2 token = true
        ∧ BotManager.add_bot (BotManager.add_bot st token n1).2 token n2
            = (false, (BotManager.add_bot st token n1).2)
        ∧ BotManager.runningBotsCount
            (BotManager.add_bot (BotManager.add_bot st token n1).2 token n2).2
          = BotManager.runningBotsCount (BotManager.add_bot st token n1).2) := by
  have part1 : ∀ (st : BotManager.ManagerState) (token name2 : String),
      BotManager.is_running st token = true →
      BotManager.add_bot st token name2 = (false, st) := by
    intro st token name2 h
    unfold BotManager.is_running at h
    cases hlk : BotManager.lookupTask st.running_bots token with
    | none =>
        rw [hlk] at h
        simp at h
    | some task =>
        rw [hlk] at h
        simp at h
        simp [BotManager.add_bot, hlk, h]
  have running_after : ∀ (st : BotManager.ManagerState) (token n1 : String),
      BotManager.is_running (BotManager.add_bot st token n1).2 token = true := by
    intro st token n1
    cases hlk : BotManager.lookupTask st.running_bots token with
    | none =>
        simp only [BotManager.add_bot, hlk]
        simp [BotManager.createAndRegisterTask, BotManager.is_running,
          BotManager.lookupTask, List.find?]
    | some task =>
        cases hd : task.done with
        | false =>
            simp only [BotManager.add_bot, hlk, hd]
            simp [BotManager.is_running, hlk, hd]
        | true =>
            simp only [BotManager.add_bot, hlk, hd]
            simp [BotManager.createAndRegisterTask, BotManager.is_running,
              BotManager.lookupTask, List.find?]
  refine ⟨part1, fun st token n1 n2 => ?_⟩
  have h1 := running_after st token n1
  have h2 := part1 _ token n2 h1
  exact ⟨h1, h2, by rw [h2]⟩

/-- C9 witness: a state with one live task for a token; re-adding that
token returns `False` and leaves the state with its single running bot. -/
theorem add_bot_idempotent_witness :
    BotManager.is_running BotManager.oneRunningState "123456789:tok" = true
    ∧ BotManager.add_bot BotManager.oneRunningState "123456789:tok" "Test Bot"
        = (false, BotManager.oneRunningState)
    ∧ BotManager.runningBotsCount BotManager.oneRunningState = 1 :=
  ⟨rfl,
   add_bot_idempotent.1 BotManager.oneRunningState "123456789:tok" "Test Bot"
     rfl,
   rfl⟩

/-- C4: with an `AIUsageLimit` of 3 uses per weekly period (not unlimited)
for the user's plan and 3 successful usage-log rows for the feature within
the last 7 days, `check_limit` (i.e. `can_use_feature`) returns
`(False, "Limit reached: 3/3 per weekly")`; the 4th `generate` attempt
raises `AILimitError` before any logging, leaving the log table unchanged
(so no additional successful entry is created); and a `generate` call
whose provider call fails appends exactly one `success=False` row, which
the `success=True` filter of `get_usage_count` excludes — a failed call
does not consume the user's quota. -/
theorem usage_limit_enforcement :
    (∀ (db : AISettings.Db) (u : AISettings.UserRow) (code : String)
        (now : Int) (feat : AISettings.AIFeatureRec) (mid : Option String)
        (outcome : AISettings.ProviderOutcome),
      db.features.find? (fun f => f.code == code && f.is_active) = some feat →
      db.limits.find? (fun l =>
          l.plan == u.plan && l.feature_code == feat.code)
        = some { plan := u.plan, feature_code := feat.code, max_uses := 3,
                 period := "weekly", is_unlimited := false } →
      AISettings.get_usage_count db u.id code "weekly" now = 3 →
      (AISettings.can_use_feature db u code now
          = (false, "Limit reached: 3/3 per weekly")
        ∧ AISettings.generate db u code mid now outcome
          = (Except.error "AILimitError: Limit reached: 3/3 per weekly", db)))
    ∧ (∀ (db : AISettings.Db) (u : AISettings.UserRow) (code : String)
        (mid : Option String) (now : Int) (e : String)
        (m : AISettings.AIModelRec),
      (AISettings.can_use_feature db u code now).1 = true →
      AISettings.get_model db mid (some code) = some m →
      ((AISettings.generate db u code mid now
          (AISettings.ProviderOutcome.fail e)).1 = Except.error e
        ∧ (∃ row : AISettings.AIUsageLogRec,
            (AISettings.generate db u code mid now
              (AISettings.ProviderOutcome.fail e)).2.logs = row :: db.logs
            ∧ row.success = false)
        ∧ (∀ (uid : Nat) (fc per : String) (now2 : Int),
            AISettings.get_usage_count
              (AISettings.generate db u code mid now
                (AISettings.ProviderOutcome.fail e)).2 uid fc per now2
            = AISettings.get_usage_count db uid fc per now2))) := by
  constructor
  · intro db u code now feat mid outcome hf hl hcount
    have hcan : AISettings.can_use_feature db u code now
        = (false, "Limit reached: 3/3 per weekly") := by
      simp only [AISettings.can_use_feature, hf, hl]
      rw [hcount]
      decide
    refine ⟨hcan, ?_⟩
    simp only [AISettings.generate, hcan]
    rfl
  · intro db u code mid now e m hcan hm
    have hgen : AISettings.generate db u code mid now
        (AISettings.ProviderOutcome.fail e)
        = (Except.error e,
           AISettings.log_usage db u code m 0 0 false e now) := by
      simp only [AISettings.generate, hm]
      simp [hcan]
    refine ⟨by rw [hgen],
      ⟨{ user := u.id, feature_code := code, input_tokens := 0,
         output_tokens := 0,
         cost_cents := (((0 : Nat) : Rat) / 1000 * m.input_cost_per_1k
           + ((0 : Nat) : Rat) / 1000 * m.output_cost_per_1k) * 100,
         success := false, error_message := e, created_at := now },
       by rw [hgen]; rfl, rfl⟩, ?_⟩
    intro uid fc per now2
    rw [hgen]
    simp [AISettings.get_usage_count, AISettings.log_usage,
      List.filter_cons]

/-- C4 witness: the exhausted database (3 successful weekly uses against a
3-use weekly limit) denies the 4th attempt without touching the log table,
and in the open database a failed provider call leaves the usage count
unchanged. -/
theorem usage_limit_enforcement_witness :
    AISettings.can_use_feature AISettings.exhaustedDb AISettings.sampleUser
        "improve_instruction" 1000 = (false, "Limit reached: 3/3 per weekly")
    ∧ AISettings.generate AISettings.exhaustedDb AISettings.sampleUser
        "improve_instruction" none 1000
        (AISettings.ProviderOutcome.ok
          { text := "ok", input_tokens := 1, output_tokens := 2 })
      = (Except.error "AILimitError: Limit reached: 3/3 per weekly",
         AISettings.exhaustedDb)
    ∧ AISettings.get_usage_count
        (AISettings.generate AISettings.openDb AISettings.sampleUser
          "improve_instruction" none 1000
          (AISettings.ProviderOutcome.fail "quota")).2
        7 "improve_instruction" "weekly" 1000
      = AISettings.get_usage_count AISettings.openDb 7 "improve_instruction"
          "weekly" 1000 := by
  have h1 := usage_limit_enforcement.1 AISettings.exhaustedDb
    AISettings.sampleUser "improve_instruction" 1000 AISettings.sampleFeature
    none
    (AISettings.ProviderOutcome.ok
      { text := "ok", input_tokens := 1, output_tokens := 2 })
    rfl rfl rfl
  have h2 := usage_limit_enforcement.2 AISettings.openDb AISettings.sampleUser
    "improve_instruction" none 1000 "quota" AISettings.sampleModel rfl rfl
  exact ⟨h1.1, h1.2, h2.2.2 7 "improve_instruction" "weekly" 1000⟩
